import Mathlib

/-!
Verification development for the backend service in src/backend/main.py:
user registration (create-or-fetch by mobile), dynamic partial-update
clause building, user fetch, and the OTP verification flow.  Neo4j node
property maps and Cypher parameter dictionaries are embedded as
association lists with Python-dict update semantics; the dynamically
assembled SET items of the update statement are embedded as a small
clause type whose rendering function reproduces the exact interpolated
source text.
-/

set_option maxHeartbeats 1000000

namespace Markwave

/-- Calendar date as produced by datetime.strptime(...).date() in the
dob handling of build_update_clauses. -/
structure PyDate where
  year : Nat
  month : Nat
  day : Nat
deriving DecidableEq

/-- Property values stored on a graph node or bound as query parameters:
null, strings, integers, booleans and dates. -/
inductive Value where
  | null : Value
  | str : String → Value
  | int : Int → Value
  | bool : Bool → Value
  | date : PyDate → Value
deriving DecidableEq

/-- A node property map or a parameter dictionary, with Python-dict
insertion semantics (replace in place, else append). -/
abbrev Props := List (String × Value)

/-- The user store: the list of User nodes, each one a property map. -/
abbrev DB := List Props

/-- Python-dict assignment d[k] = v: replace the binding in place when
the key is already present, otherwise append it. -/
def dictInsert : Props → String → Value → Props
  | [], k, v => [(k, v)]
  | p :: rest, k, v => if p.1 = k then (k, v) :: rest else p :: dictInsert rest k v

/-- Dictionary lookup of the first (hence unique) binding of a key. -/
def dictGet : Props → String → Option Value
  | [], _ => none
  | p :: rest, k => if p.1 = k then some p.2 else dictGet rest k

/-- Property removal: Neo4j removes a property when it is SET to null. -/
def dictRemove : Props → String → Props
  | [], _ => []
  | p :: rest, k => if p.1 = k then dictRemove rest k else p :: dictRemove rest k

/-- One SET item of the dynamically assembled update statement.
assignParam prop param stands for the source text u.prop = $param;
assignTrue prop stands for the constant assignment u.prop = true. -/
inductive Clause where
  | assignParam : String → String → Clause
  | assignTrue : String → Clause
deriving DecidableEq

/-- The exact text that the source interpolates into the Cypher
statement for one SET item. -/
def clauseText : Clause → String
  | .assignParam p q => "u." ++ p ++ " = $" ++ q
  | .assignTrue p => "u." ++ p ++ " = true"

/-- The property a SET item writes. -/
def clauseProp : Clause → String
  | .assignParam p _ => p
  | .assignTrue p => p

/-- key.replace(space, underscore).replace(hyphen, underscore) from the
custom-fields loop of build_update_clauses; both replacements are
single-character, hence together a character map. -/
def sanitizeKey (key : String) : String :=
  String.mk (key.data.map (fun c => if c = ' ' then '_' else if c = '-' then '_' else c))

/-- Gregorian leap-year test used by Python date validation. -/
def isLeap (y : Nat) : Bool :=
  (y % 4 == 0 && y % 100 != 0) || y % 400 == 0

/-- Number of days of a month, as validated by datetime.date. -/
def daysInMonth (y m : Nat) : Nat :=
  if m = 2 then (if isLeap y then 29 else 28)
  else if m = 4 ∨ m = 6 ∨ m = 9 ∨ m = 11 then 30
  else 31

/-- Numeric value of a run of decimal digits. -/
def digitsVal (l : List Char) : Nat :=
  l.foldl (fun acc c => acc * 10 + (c.toNat - 48)) 0

/-- Split a character list on the hyphen separators of the date format. -/
def splitOnDash : List Char → List (List Char)
  | [] => [[]]
  | c :: rest =>
    match splitOnDash rest with
    | [] => [[]]
    | g :: gs => if c = '-' then [] :: g :: gs else (c :: g) :: gs

/-- datetime.strptime(s, percent-m dash percent-d dash percent-Y).date():
month and day are runs of one or two digits, the year exactly four
digits, the three runs separated by hyphens and consuming the whole
string; the month is 1..12 and the day valid for the month and year,
else a ValueError is raised (modelled as none). -/
def strptime_mdY (s : String) : Option PyDate :=
  match splitOnDash s.data with
  | [ms, ds, ys] =>
    if ms.all Char.isDigit ∧ 1 ≤ ms.length ∧ ms.length ≤ 2
        ∧ ds.all Char.isDigit ∧ 1 ≤ ds.length ∧ ds.length ≤ 2
        ∧ ys.all Char.isDigit ∧ ys.length = 4 then
      let m := digitsVal ms
      let d := digitsVal ds
      let y := digitsVal ys
      if 1 ≤ m ∧ m ≤ 12 ∧ 1 ≤ d ∧ 1 ≤ y ∧ d ≤ daysInMonth y m then
        some ⟨y, m, d⟩
      else none
    else none
  | _ => none

/-- Request body of POST /users/ (pydantic model UserCreate). -/
structure UserCreate where
  mobile : String
  first_name : String
  last_name : String
  refered_by_mobile : String
  refered_by_name : Option String
deriving DecidableEq

/-- Request body of the partial-update endpoints (pydantic model
UserUpdate): every attribute optional, plus open custom fields. -/
structure UserUpdate where
  name : Option String := none
  referral_type : Option String := none
  verified : Option Bool := none
  email : Option String := none
  first_name : Option String := none
  last_name : Option String := none
  gender : Option String := none
  occupation : Option String := none
  dob : Option String := none
  address : Option String := none
  city : Option String := none
  state : Option String := none
  aadhar_number : Option Int := none
  pincode : Option String := none
  income_level : Option String := none
  family_size : Option Int := none
  aadhar_front_image_url : Option String := none
  aadhar_back_image_url : Option String := none
  custom_fields : Option (List (String × Value)) := none
deriving DecidableEq

/-- Request body of POST /users/verify (pydantic model UserVerify). -/
structure UserVerify where
  mobile : String
  device_id : String
  device_model : String
deriving DecidableEq

/-- Uniform response envelope of the endpoints; absent JSON keys are
none. -/
structure Response where
  statuscode : Nat
  status : String
  message : Option String := none
  user : Option Props := none
  otp : Option String := none
  updated_fields : Option Nat := none
deriving DecidableEq

/-- One optional-field block of build_update_clauses: when the value is
present, append this block of SET items and bind the parameter. -/
def updStep (v : Option Value) (cl : List Clause) (pkey : String)
    (acc : List Clause × Props) : List Clause × Props :=
  match v with
  | some val => (acc.1 ++ cl, dictInsert acc.2 pkey val)
  | none => acc

/-- One iteration of the custom-fields loop of build_update_clauses:
sanitize the key and use it as both property and parameter name. -/
def customStep (acc : List Clause × Props) (kv : String × Value) : List Clause × Props :=
  let safe_key := sanitizeKey kv.1
  (acc.1 ++ [Clause.assignParam safe_key safe_key], dictInsert acc.2 safe_key kv.2)

/-- build_update_clauses (main.py lines 82-146): one block per handled
attribute, in source order; supplying email additionally appends the
constant assignments of verified and isFormFilled; dob is parsed and on
ValueError silently skipped; finally the custom-fields loop.  The
attributes referral_type, income_level and family_size of UserUpdate
are not read anywhere in the source function. -/
def build_update_clauses (user_update : UserUpdate) : List Clause × Props :=
  let acc : List Clause × Props := ([], [])
  let acc := updStep (user_update.name.map Value.str) [Clause.assignParam "name" "name"] "name" acc
  let acc := updStep (user_update.email.map Value.str)
    [Clause.assignParam "email" "email", Clause.assignTrue "verified", Clause.assignTrue "isFormFilled"] "email" acc
  let acc := updStep (user_update.first_name.map Value.str) [Clause.assignParam "first_name" "first_name"] "first_name" acc
  let acc := updStep (user_update.last_name.map Value.str) [Clause.assignParam "last_name" "last_name"] "last_name" acc
  let acc := updStep (user_update.gender.map Value.str) [Clause.assignParam "gender" "gender"] "gender" acc
  let acc := updStep (user_update.occupation.map Value.str) [Clause.assignParam "occupation" "occupation"] "occupation" acc
  let acc := updStep ((user_update.dob.bind strptime_mdY).map Value.date) [Clause.assignParam "dob" "dob"] "dob" acc
  let acc := updStep (user_update.address.map Value.str) [Clause.assignParam "address" "address"] "address" acc
  let acc := updStep (user_update.city.map Value.str) [Clause.assignParam "city" "city"] "city" acc
  let acc := updStep (user_update.state.map Value.str) [Clause.assignParam "state" "state"] "state" acc
  let acc := updStep (user_update.aadhar_number.map Value.int) [Clause.assignParam "aadhar_number" "aadhar_number"] "aadhar_number" acc
  let acc := updStep (user_update.pincode.map Value.str) [Clause.assignParam "pincode" "pincode"] "pincode" acc
  let acc := updStep (user_update.aadhar_front_image_url.map Value.str) [Clause.assignParam "aadhar_front_image_url" "aadhar_front_image_url"] "aadhar_front_image_url" acc
  let acc := updStep (user_update.aadhar_back_image_url.map Value.str) [Clause.assignParam "aadhar_back_image_url" "aadhar_back_image_url"] "aadhar_back_image_url" acc
  let acc := updStep (user_update.verified.map Value.bool) [Clause.assignParam "verified" "verified"] "verified" acc
  let acc := match user_update.custom_fields with
    | some cf => cf.foldl customStep acc
    | none => acc
  acc

/-- MATCH (u:User with the given mobile) RETURN u - the first matching
node of the store. -/
def findUserByMobile (db : DB) (mobile : String) : Option Props :=
  db.find? (fun props => decide (dictGet props "mobile" = some (Value.str mobile)))

/-- Neo4j executing one SET item: a parameter assignment writes the
bound value (binding null removes the property, an unbound parameter
leaves the node as is); a constant assignment writes true. -/
def applySetClause (params : Props) (props : Props) : Clause → Props
  | .assignTrue p => dictInsert props p (Value.bool true)
  | .assignParam p q =>
    match dictGet params q with
    | some Value.null => dictRemove props p
    | some v => dictInsert props p v
    | none => props

/-- Neo4j executing the SET items of the update statement in order. -/
def runSet (cs : List Clause) (params props : Props) : Props :=
  cs.foldl (applySetClause params) props

/-- PUT /users/(mobile) (main.py lines 243-271): look the user up, build
the clauses, overwrite the mobile parameter with the path value, and
when any clause was produced run the single SET statement over every
matching node; the response reports len(set_clauses) updated fields. -/
def update_user (db : DB) (mobile : String) (user_update : UserUpdate) : Response × DB :=
  match findUserByMobile db mobile with
  | none => ({ statuscode := 404, status := "error", message := some "User not found" }, db)
  | some _ =>
    let bc := build_update_clauses user_update
    let set_clauses := bc.1
    let params := dictInsert bc.2 "mobile" (Value.str mobile)
    if set_clauses.isEmpty then
      ({ statuscode := 200, status := "success", message := some "User updated successfully",
         updated_fields := some set_clauses.length, user := none }, db)
    else
      let db2 := db.map (fun props =>
        if dictGet props "mobile" = some (Value.str mobile) then runSet set_clauses params props
        else props)
      ({ statuscode := 200, status := "success", message := some "User updated successfully",
         updated_fields := some set_clauses.length, user := findUserByMobile db2 mobile }, db2)

/-- GET /users/(mobile) (main.py lines 349-368): return the stored
property map verbatim. -/
def get_user_details (db : DB) (mobile : String) : Response :=
  match findUserByMobile db mobile with
  | none => { statuscode := 404, status := "error", message := some "User not found" }
  | some props => { statuscode := 200, status := "success", user := some props }

/-- The node MERGE creates for a fresh mobile: the merge pattern binds
mobile, ON CREATE assigns the generated id, then the SET items write
the registration fields in source order (a null refered_by_name creates
no property). -/
def createNode (freshId : String) (u : UserCreate) : Props :=
  let node : Props := [("mobile", Value.str u.mobile)]
  let node := dictInsert node "id" (Value.str freshId)
  let node := dictInsert node "first_name" (Value.str u.first_name)
  let node := dictInsert node "last_name" (Value.str u.last_name)
  let node := dictInsert node "mobile" (Value.str u.mobile)
  let node := dictInsert node "refered_by_mobile" (Value.str u.refered_by_mobile)
  match u.refered_by_name with
  | some n => dictInsert node "refered_by_name" (Value.str n)
  | none => node

/-- POST /users/ (main.py lines 191-241): when a user with the mobile
exists, return it verbatim with the already-exists message; otherwise
the MERGE creates the node and the response carries the hand-built
record of the RETURN clause. -/
def create_User (freshId : String) (db : DB) (u : UserCreate) : Response × DB :=
  match findUserByMobile db u.mobile with
  | some props =>
    ({ statuscode := 200, status := "success", message := some "User already exists",
       user := some props }, db)
  | none =>
    let node := createNode freshId u
    let respUser : Props :=
      [("id", Value.str freshId), ("mobile", Value.str u.mobile),
       ("first_name", Value.str u.first_name), ("last_name", Value.str u.last_name),
       ("refered_by_mobile", Value.str u.refered_by_mobile),
       ("refered_by_name", match u.refered_by_name with
         | some n => Value.str n
         | none => Value.null)]
    ({ statuscode := 201, status := "success", message := some "User created or updated",
       user := some respUser }, db ++ [node])

/-- Modelled from the contract of random.randint(a, b): an integer of
the inclusive range a..b, the draw determined by an abstract seed. -/
def randint (a b seed : Nat) : Nat :=
  a + seed % (b - a + 1)

/-- Python truthiness of the value read back for u.verified. -/
def isTruthy : Option Value → Bool
  | none => false
  | some Value.null => false
  | some (Value.bool b) => b
  | some (Value.int n) => n != 0
  | some (Value.str s) => s != ""
  | some (Value.date _) => true

/-- Two-digit zero padding of strftime. -/
def pad2 (n : Nat) : String :=
  if n < 10 then "0" ++ toString n else toString n

/-- strftime of a date in day dash month dash year display order. -/
def formatDdMmYyyy (d : PyDate) : String :=
  pad2 d.day ++ "-" ++ pad2 d.month ++ "-" ++ toString d.year

/-- The dob display conversion applied to outgoing property maps: a
date-valued dob is replaced by its display string. -/
def convert_dob (props : Props) : Props :=
  match dictGet props "dob" with
  | some (Value.date d) => dictInsert props "dob" (Value.str (formatDdMmYyyy d))
  | _ => props

/-- POST /users/verify (main.py lines 447-493): not found gives the 300
envelope; a truthy verified gives the already-verified envelope; else a
referral_type of new_referral draws an OTP, writes device_id and
device_model onto every matching node (and nothing else), and returns
the OTP with the profile snapshot; else the soft 300 envelope. -/
def verify_user (seed : Nat) (db : DB) (v : UserVerify) : Response × DB :=
  match findUserByMobile db v.mobile with
  | none => ({ statuscode := 300, status := "error", message := some "User not found" }, db)
  | some props =>
    if isTruthy (dictGet props "verified") then
      ({ statuscode := 200, status := "success", message := some "User already verified",
         user := some (convert_dob props) }, db)
    else if dictGet props "referral_type" = some (Value.str "new_referral") then
      let otp := toString (randint 100000 999999 seed)
      let db2 := db.map (fun p =>
        if dictGet p "mobile" = some (Value.str v.mobile) then
          dictInsert (dictInsert p "device_id" (Value.str v.device_id)) "device_model"
            (Value.str v.device_model)
        else p)
      ({ statuscode := 200, status := "success", message := some "New user verified",
         otp := some otp, user := some (convert_dob props) }, db2)
    else
      ({ statuscode := 300, status := "error", message := some "User not a new referral" }, db)

/-- The clause block contributed by one optional attribute: its clause
list when present, nothing when absent. -/
def optSeg (o : Option α) (cl : List Clause) : List Clause :=
  match o with
  | some _ => cl
  | none => []

/-- The clause contributed by one custom-fields entry. -/
def customClause (kv : String × Value) : Clause :=
  Clause.assignParam (sanitizeKey kv.1) (sanitizeKey kv.1)

/-- The clause list contributed by the custom-fields mapping. -/
def customSeg (cf : Option (List (String × Value))) : List Clause :=
  match cf with
  | some l => l.map customClause
  | none => []

/-- Number of occurrences of one clause in a clause list. -/
def countClause (c : Clause) (l : List Clause) : Nat :=
  l.countP (fun x => decide (x = c))

/-- The fixed property names build_update_clauses can write through its
recognized attributes (the two constant flags included). -/
def fixedProps : List String :=
  ["name", "email", "verified", "isFormFilled", "first_name", "last_name", "gender",
   "occupation", "dob", "address", "city", "state", "aadhar_number", "pincode",
   "aadhar_front_image_url", "aadhar_back_image_url"]

/-- An update request whose only content is a custom field with a
semicolon inside the key. -/
def uuBadKey : UserUpdate :=
  { custom_fields := some [("bad;key", Value.str "x")] }

/-- A store holding one unverified referral user. -/
def dbVerify : DB :=
  [[("mobile", Value.str "9000000001"), ("verified", Value.bool false),
    ("referral_type", Value.str "new_referral"), ("name", Value.str "Asha")]]

/-- A verification request for that user. -/
def reqVerify : UserVerify :=
  { mobile := "9000000001", device_id := "dev1", device_model := "model1" }

/-- An update request supplying only income_level. -/
def uuIncome : UserUpdate :=
  { income_level := some "high" }

/-- An update request mixing explicit falsy values with a dob that
fails to parse (February 30). -/
def uuMixed : UserUpdate :=
  { name := some "N", verified := some false, dob := some "02-30-2020",
    aadhar_number := some 0, pincode := some "" }

/-- A store holding one user with an already assigned generated id. -/
def dbId : DB :=
  [[("mobile", Value.str "9000000001"), ("id", Value.str "orig-id")]]

/-- An update request whose only content is a custom field keyed id. -/
def uuIdHijack : UserUpdate :=
  { custom_fields := some [("id", Value.str "hijacked")] }

theorem dictGet_insert_self (d : Props) (k : String) (v : Value) :
    dictGet (dictInsert d k v) k = some v := by
  induction d with
  | nil => simp [dictInsert, dictGet]
  | cons p rest ih =>
    by_cases h : p.1 = k
    · simp [dictInsert, dictGet, h]
    · simp [dictInsert, dictGet, h, ih]

theorem dictGet_insert_ne (d : Props) {j k : String} (v : Value) (h : j ≠ k) :
    dictGet (dictInsert d k v) j = dictGet d j := by
  have hkj : k ≠ j := Ne.symm h
  induction d with
  | nil => simp [dictInsert, dictGet, hkj]
  | cons p rest ih =>
    by_cases hp : p.1 = k
    · simp [dictInsert, dictGet, hp, hkj]
    · simp [dictInsert, dictGet, hp, ih]

theorem dictGet_remove_ne (d : Props) {j k : String} (h : j ≠ k) :
    dictGet (dictRemove d k) j = dictGet d j := by
  have hkj : k ≠ j := Ne.symm h
  induction d with
  | nil => simp [dictRemove]
  | cons p rest ih =>
    by_cases hp : p.1 = k
    · simp [dictRemove, dictGet, hp, hkj, ih]
    · simp [dictRemove, dictGet, hp, ih]

theorem updStep_fst (v : Option Value) (cl : List Clause) (pkey : String)
    (acc : List Clause × Props) :
    (updStep v cl pkey acc).1 = acc.1 ++ optSeg v cl := by
  cases v <;> simp [updStep, optSeg]

theorem updStep_snd_get_ne (v : Option Value) (cl : List Clause) {pkey j : String}
    (acc : List Clause × Props) (h : j ≠ pkey) :
    dictGet (updStep v cl pkey acc).2 j = dictGet acc.2 j := by
  cases v <;> simp [updStep, dictGet_insert_ne _ _ h]

theorem updStep_snd_get_self (v : Option Value) (cl : List Clause) (pkey : String)
    (acc : List Clause × Props) :
    dictGet (updStep v cl pkey acc).2 pkey =
      match v with
      | some val => some val
      | none => dictGet acc.2 pkey := by
  cases v <;> simp [updStep, dictGet_insert_self]

theorem optSeg_map (o : Option α) (f : α → β) (cl : List Clause) :
    optSeg (o.map f) cl = optSeg o cl := by
  cases o <;> rfl

theorem optSeg_bind_map (o : Option α) (f : α → Option β) (g : β → γ) (cl : List Clause) :
    optSeg (o.bind fun a => Option.map g (f a)) cl = optSeg (o.bind f) cl := by
  cases o with
  | none => rfl
  | some a => exact optSeg_map (f a) g cl

theorem customFold_fst (cf : List (String × Value)) (acc : List Clause × Props) :
    (cf.foldl customStep acc).1 = acc.1 ++ cf.map customClause := by
  induction cf generalizing acc with
  | nil => simp
  | cons kv t ih => simp [customStep, customClause, ih, List.append_assoc]

/-- Characterization of the clause list produced by build_update_clauses
as the concatenation of the per-attribute blocks in source order. -/
theorem build_fst (u : UserUpdate) : (build_update_clauses u).1 =
    optSeg u.name [Clause.assignParam "name" "name"] ++
    optSeg u.email [Clause.assignParam "email" "email", Clause.assignTrue "verified",
      Clause.assignTrue "isFormFilled"] ++
    optSeg u.first_name [Clause.assignParam "first_name" "first_name"] ++
    optSeg u.last_name [Clause.assignParam "last_name" "last_name"] ++
    optSeg u.gender [Clause.assignParam "gender" "gender"] ++
    optSeg u.occupation [Clause.assignParam "occupation" "occupation"] ++
    optSeg (u.dob.bind strptime_mdY) [Clause.assignParam "dob" "dob"] ++
    optSeg u.address [Clause.assignParam "address" "address"] ++
    optSeg u.city [Clause.assignParam "city" "city"] ++
    optSeg u.state [Clause.assignParam "state" "state"] ++
    optSeg u.aadhar_number [Clause.assignParam "aadhar_number" "aadhar_number"] ++
    optSeg u.pincode [Clause.assignParam "pincode" "pincode"] ++
    optSeg u.aadhar_front_image_url
      [Clause.assignParam "aadhar_front_image_url" "aadhar_front_image_url"] ++
    optSeg u.aadhar_back_image_url
      [Clause.assignParam "aadhar_back_image_url" "aadhar_back_image_url"] ++
    optSeg u.verified [Clause.assignParam "verified" "verified"] ++
    customSeg u.custom_fields := by
  cases hcf : u.custom_fields <;>
    simp [build_update_clauses, hcf, updStep_fst, optSeg_map, optSeg_bind_map, customFold_fst,
      customSeg, List.append_assoc]

theorem countClause_append (c : Clause) (l1 l2 : List Clause) :
    countClause c (l1 ++ l2) = countClause c l1 + countClause c l2 := by
  simp [countClause, List.countP_append]

theorem countClause_optSeg (c : Clause) (o : Option α) (cl : List Clause) :
    countClause c (optSeg o cl) = if o.isSome then countClause c cl else 0 := by
  cases o <;> simp [optSeg, countClause]

theorem mem_optSeg {c : Clause} {o : Option α} {cl : List Clause} (h : c ∈ optSeg o cl) :
    c ∈ cl := by
  cases o with
  | none => simp [optSeg] at h
  | some a => exact h

theorem forall_mem_append {P : Clause → Prop} {l1 l2 : List Clause}
    (h1 : ∀ c ∈ l1, P c) (h2 : ∀ c ∈ l2, P c) : ∀ c ∈ l1 ++ l2, P c := by
  intro c hc
  rcases List.mem_append.mp hc with h | h
  · exact h1 c h
  · exact h2 c h

theorem forall_mem_optSeg {P : Clause → Prop} {o : Option α} {cl : List Clause}
    (h : ∀ c ∈ cl, P c) : ∀ c ∈ optSeg o cl, P c :=
  fun c hc => h c (mem_optSeg hc)

/-- Every SET item the builder produces either assigns through a
parameter named like its property (a fixed one or a sanitized custom
key) or is one of the two constant flag assignments. -/
theorem build_clause_shape (u : UserUpdate) :
    ∀ c ∈ (build_update_clauses u).1,
      (∃ p, c = Clause.assignParam p p ∧
        (p ∈ fixedProps ∨ ∃ kv ∈ u.custom_fields.getD [], p = sanitizeKey kv.1)) ∨
      c = Clause.assignTrue "verified" ∨ c = Clause.assignTrue "isFormFilled" := by
  rw [build_fst]
  repeat
    apply forall_mem_append
  all_goals try
    (apply forall_mem_optSeg
     intro c hc
     simp at hc)
  all_goals try
    (subst hc
     exact Or.inl ⟨_, rfl, Or.inl (by decide)⟩)
  · rcases hc with rfl | rfl | rfl
    · exact Or.inl ⟨"email", rfl, Or.inl (by decide)⟩
    · exact Or.inr (Or.inl rfl)
    · exact Or.inr (Or.inr rfl)
  · intro c hc
    cases hcf : u.custom_fields with
    | none => rw [hcf] at hc; simp [customSeg] at hc
    | some cf =>
      rw [hcf] at hc
      simp only [customSeg, List.mem_map] at hc
      obtain ⟨kv, hkv, rfl⟩ := hc
      exact Or.inl ⟨sanitizeKey kv.1, rfl, Or.inr ⟨kv, by simp [hcf, hkv], rfl⟩⟩

theorem applySetClause_preserve (params props : Props) (c : Clause) {k : String}
    (h : clauseProp c ≠ k) :
    dictGet (applySetClause params props c) k = dictGet props k := by
  cases c with
  | assignTrue p =>
    have hkp : k ≠ p := Ne.symm h
    simp [applySetClause, dictGet_insert_ne _ _ hkp]
  | assignParam p q =>
    have hkp : k ≠ p := Ne.symm h
    cases hv : dictGet params q with
    | none => simp [applySetClause, hv]
    | some v =>
      cases v <;> simp only [applySetClause, hv] <;>
        first
        | exact dictGet_remove_ne props hkp
        | exact dictGet_insert_ne props _ hkp

theorem runSet_preserve : ∀ (cs : List Clause) (params props : Props) {k : String},
    (∀ c ∈ cs, clauseProp c ≠ k) →
    dictGet (runSet cs params props) k = dictGet props k := by
  intro cs
  induction cs with
  | nil => intro params props k h; rfl
  | cons c t ih =>
    intro params props k h
    have hstep : runSet (c :: t) params props = runSet t params (applySetClause params props c) :=
      rfl
    rw [hstep, ih params _ (fun d hd => h d (List.mem_cons_of_mem _ hd)),
      applySetClause_preserve _ _ _ (h c (List.mem_cons_self _ _))]

theorem runSet_keeps_mobile : ∀ (cs : List Clause) (params props : Props) (mobile : String),
    (∀ c ∈ cs, (∃ p, c = Clause.assignParam p p) ∨ ∃ p, c = Clause.assignTrue p ∧ p ≠ "mobile") →
    dictGet params "mobile" = some (Value.str mobile) →
    dictGet props "mobile" = some (Value.str mobile) →
    dictGet (runSet cs params props) "mobile" = some (Value.str mobile) := by
  intro cs
  induction cs with
  | nil => intro params props mobile _ _ h0; exact h0
  | cons c t ih =>
    intro params props mobile hshape hp h0
    have hstep : runSet (c :: t) params props = runSet t params (applySetClause params props c) :=
      rfl
    rw [hstep]
    refine ih params _ mobile (fun d hd => hshape d (List.mem_cons_of_mem _ hd)) hp ?_
    rcases hshape c (List.mem_cons_self _ _) with ⟨p, rfl⟩ | ⟨p, rfl, hpm⟩
    · by_cases hpmob : p = "mobile"
      · subst hpmob
        simp [applySetClause, hp, dictGet_insert_self]
      · rw [applySetClause_preserve params props (Clause.assignParam p p) hpmob]
        exact h0
    · rw [applySetClause_preserve params props (Clause.assignTrue p) hpm]
      exact h0

theorem find?_append_none {α : Type} (p : α → Bool) {l1 : List α} (l2 : List α)
    (h : l1.find? p = none) : (l1 ++ l2).find? p = l2.find? p := by
  induction l1 with
  | nil => rfl
  | cons a t ih =>
    cases hpa : p a with
    | true => simp [List.find?, hpa] at h
    | false =>
      simp only [List.find?, hpa] at h
      simpa [List.find?, hpa] using ih h

theorem findUserByMobile_map (db : DB) (mobile : String) (f : Props → Props)
    (hf : ∀ props, dictGet (f props) "mobile" = dictGet props "mobile") :
    findUserByMobile (db.map f) mobile = (findUserByMobile db mobile).map f := by
  induction db with
  | nil => rfl
  | cons props t ih =>
    by_cases hm : dictGet props "mobile" = some (Value.str mobile)
    · simp [findUserByMobile, List.find?, hf, hm]
    · simp only [findUserByMobile, List.map_cons, List.find?, hf, hm] at ih ⊢
      simpa [hm] using ih

/-- C1: build_update_clauses does NOT reject or neutralize a
custom-fields key containing a semicolon; only spaces and hyphens are
rewritten, so the key bad;key reaches the SET text of the storage
statement unescaped, contradicting the hard requirement of the
specification. -/
theorem c1_semicolon_key_passes_unescaped :
    (build_update_clauses uuBadKey).1.map clauseText = ["u.bad;key = $bad;key"] ∧
    (build_update_clauses uuBadKey).2 = [("bad;key", Value.str "x")] := by
  decide

/-- C2: on an unverified new_referral user, the first verify call does
return an OTP and store the device metadata, but it never sets
u.verified, so the state is not flipped and a second call answers with
New user verified and a fresh OTP instead of the already-verified
response without a code. -/
theorem c2_verify_never_flips_state :
    (verify_user 0 dbVerify reqVerify).1.message = some "New user verified" ∧
    (verify_user 0 dbVerify reqVerify).1.otp = some "100000" ∧
    dictGet ((verify_user 0 dbVerify reqVerify).2.headD []) "device_id" =
      some (Value.str "dev1") ∧
    dictGet ((verify_user 0 dbVerify reqVerify).2.headD []) "device_model" =
      some (Value.str "model1") ∧
    dictGet ((verify_user 0 dbVerify reqVerify).2.headD []) "verified" =
      some (Value.bool false) ∧
    (verify_user 1 (verify_user 0 dbVerify reqVerify).2 reqVerify).1.message =
      some "New user verified" ∧
    (verify_user 1 (verify_user 0 dbVerify reqVerify).2 reqVerify).1.otp = some "100001" := by
  decide

/-- C3 counterexample: income_level is a recognized attribute of
UserUpdate, yet supplying it produces no assignment clause and no
parameter at all, so the claim that every recognized attribute is
applied when present is false. -/
theorem c3_income_level_counterexample :
    uuIncome.income_level = some "high" ∧ build_update_clauses uuIncome = ([], []) := by
  decide

/-- C4 counterexample: a custom-fields key id in a PUT by mobile emits
the clause u.id = $id with the caller-supplied binding, reassigning the
generated identifier of the stored user. -/
theorem c4_custom_id_counterexample :
    dictGet (dbId.headD []) "id" = some (Value.str "orig-id") ∧
    dictGet ((update_user dbId "9000000001" uuIdHijack).2.headD []) "id" =
      some (Value.str "hijacked") := by
  decide

/-- C6: whenever the email attribute is present, the builder emits, in
the same clause list, the parameterized email assignment together with
the constant assignments setting u.verified and u.isFormFilled to
true. -/
theorem c6_email_forces_flags (uu : UserUpdate) (s : String) (h : uu.email = some s) :
    Clause.assignParam "email" "email" ∈ (build_update_clauses uu).1 ∧
    Clause.assignTrue "verified" ∈ (build_update_clauses uu).1 ∧
    Clause.assignTrue "isFormFilled" ∈ (build_update_clauses uu).1 := by
  rw [build_fst]
  simp [h, optSeg, List.mem_append]

/-- C6 witness at a concrete update request. -/
theorem c6_email_forces_flags_witness :
    Clause.assignTrue "verified" ∈
      (build_update_clauses ({ email := some "x@y.z" } : UserUpdate)).1 ∧
    Clause.assignTrue "isFormFilled" ∈
      (build_update_clauses ({ email := some "x@y.z" } : UserUpdate)).1 :=
  ⟨(c6_email_forces_flags ({ email := some "x@y.z" } : UserUpdate) "x@y.z" rfl).2.1,
   (c6_email_forces_flags ({ email := some "x@y.z" } : UserUpdate) "x@y.z" rfl).2.2⟩

/-- C8: dob is parsed in the single fixed month-day-year textual
format; when parsing fails the builder behaves exactly as if dob were
absent (silent drop, no parameter bound, no error, every other supplied
field still applied), and when parsing succeeds the dob assignment is
emitted with the parsed native date bound. -/
theorem c8_dob_parse_or_silent_drop (uu : UserUpdate) (s : String) (h : uu.dob = some s) :
    (strptime_mdY s = none →
      build_update_clauses uu = build_update_clauses { uu with dob := none }) ∧
    (∀ d, strptime_mdY s = some d →
      Clause.assignParam "dob" "dob" ∈ (build_update_clauses uu).1 ∧
      (uu.custom_fields = none →
        dictGet (build_update_clauses uu).2 "dob" = some (Value.date d))) := by
  constructor
  · intro hn
    simp [build_update_clauses, h, hn]
  · intro d hd
    constructor
    · rw [build_fst]
      simp [h, hd, optSeg, List.mem_append]
    · intro hc
      simp [build_update_clauses, h, hd, hc, updStep_snd_get_ne, updStep_snd_get_self, dictGet]

/-- C8 witness: a dob that fails to parse is dropped while city is
still applied, and a dob in month-day-year form is parsed and bound. -/
theorem c8_dob_parse_or_silent_drop_witness :
    (build_update_clauses ({ dob := some "13-01-1990", city := some "Pune" } : UserUpdate) =
      build_update_clauses ({ city := some "Pune" } : UserUpdate)) ∧
    Clause.assignParam "dob" "dob" ∈
      (build_update_clauses ({ dob := some "01-15-1990" } : UserUpdate)).1 ∧
    dictGet (build_update_clauses ({ dob := some "01-15-1990" } : UserUpdate)).2 "dob" =
      some (Value.date ⟨1990, 1, 15⟩) :=
  ⟨(c8_dob_parse_or_silent_drop ({ dob := some "13-01-1990", city := some "Pune" } : UserUpdate)
      "13-01-1990" rfl).1 (by decide),
   ((c8_dob_parse_or_silent_drop ({ dob := some "01-15-1990" } : UserUpdate)
      "01-15-1990" rfl).2 ⟨1990, 1, 15⟩ (by decide)).1,
   ((c8_dob_parse_or_silent_drop ({ dob := some "01-15-1990" } : UserUpdate)
      "01-15-1990" rfl).2 ⟨1990, 1, 15⟩ (by decide)).2 rfl⟩

/-- C9: an update supplying only city changes no other property of any
stored user, and when the builder produces no clause the handler
performs no write and reports zero updated fields. -/
theorem c9_frame_and_no_write (db : DB) (mobile c : String) (uu : UserUpdate) :
    (∀ i k, k ≠ "city" →
      (((update_user db mobile { city := some c }).2.get? i).map (fun p => dictGet p k)) =
        ((db.get? i).map (fun p => dictGet p k))) ∧
    ((build_update_clauses uu).1 = [] →
      (update_user db mobile uu).2 = db ∧
      ((findUserByMobile db mobile).isSome →
        (update_user db mobile uu).1.updated_fields = some 0)) := by
  constructor
  · intro i k hk
    cases hf : findUserByMobile db mobile with
    | none => simp [update_user, hf]
    | some props =>
      have hbc : build_update_clauses ({ city := some c } : UserUpdate) =
          ([Clause.assignParam "city" "city"], [("city", Value.str c)]) := rfl
      have hpt : ∀ p : Props,
          dictGet (if dictGet p "mobile" = some (Value.str mobile)
            then runSet [Clause.assignParam "city" "city"]
              (dictInsert [("city", Value.str c)] "mobile" (Value.str mobile)) p
            else p) k = dictGet p k := by
        intro p
        by_cases hm : dictGet p "mobile" = some (Value.str mobile)
        · simp only [hm, if_true, ite_true]
          rw [runSet_preserve]
          intro cl hcl
          simp at hcl
          subst hcl
          exact Ne.symm hk
        · simp [hm]
      simp only [update_user, hf, hbc]
      simp only [List.isEmpty_cons, Bool.false_eq_true, if_false]
      rw [List.get?_map]
      cases db.get? i with
      | none => rfl
      | some p => simp [hpt p]
  · intro hb
    cases hf : findUserByMobile db mobile with
    | none => simp [update_user, hf]
    | some props =>
      constructor
      · simp [update_user, hf, hb]
      · intro _
        simp [update_user, hf, hb]

/-- C9 witness at a concrete store, index and property. -/
theorem c9_frame_and_no_write_witness :
    ((((update_user [[("mobile", Value.str "9"), ("name", Value.str "A")]] "9"
        ({ city := some "Pune" } : UserUpdate)).2.get? 0).map (fun p => dictGet p "name")) =
      ((([[("mobile", Value.str "9"), ("name", Value.str "A")]] : DB).get? 0).map
        (fun p => dictGet p "name"))) ∧
    (update_user [[("mobile", Value.str "9")]] "9" ({} : UserUpdate)).2 =
      [[("mobile", Value.str "9")]] ∧
    (update_user [[("mobile", Value.str "9")]] "9" ({} : UserUpdate)).1.updated_fields =
      some 0 :=
  ⟨(c9_frame_and_no_write [[("mobile", Value.str "9"), ("name", Value.str "A")]] "9" "Pune"
      ({} : UserUpdate)).1 0 "name" (by decide),
   ((c9_frame_and_no_write [[("mobile", Value.str "9")]] "9" "Pune" ({} : UserUpdate)).2 rfl).1,
   ((c9_frame_and_no_write [[("mobile", Value.str "9")]] "9" "Pune" ({} : UserUpdate)).2 rfl).2
     (by decide)⟩

/-- C10: after any PUT by mobile, every user node of the store either
still carries exactly the path mobile (in particular the matched user,
whose $mobile binding the handler overwrote after the builder ran) or
is an untouched node of the old store; a custom field sanitizing to
mobile therefore cannot change the natural key. -/
theorem c10_mobile_not_reassignable (db : DB) (mobile : String) (uu : UserUpdate) :
    ∀ pr ∈ (update_user db mobile uu).2,
      dictGet pr "mobile" = some (Value.str mobile) ∨ pr ∈ db := by
  intro pr hpr
  cases hf : findUserByMobile db mobile with
  | none =>
    rw [update_user, hf] at hpr
    exact Or.inr hpr
  | some props =>
    rw [update_user, hf] at hpr
    by_cases he : (build_update_clauses uu).1.isEmpty
    · simp only [he, if_true, ite_true] at hpr
      exact Or.inr hpr
    · simp only [he, Bool.false_eq_true, if_false, ite_false] at hpr
      rcases List.mem_map.mp hpr with ⟨p, hp, rfl⟩
      by_cases hm : dictGet p "mobile" = some (Value.str mobile)
      · left
        simp only [hm, if_true, ite_true]
        refine runSet_keeps_mobile _ _ _ mobile ?_ ?_ hm
        · intro cl hcl
          rcases build_clause_shape uu cl hcl with ⟨q, rfl, _⟩ | rfl | rfl
          · exact Or.inl ⟨q, rfl⟩
          · exact Or.inr ⟨"verified", rfl, by decide⟩
          · exact Or.inr ⟨"isFormFilled", rfl, by decide⟩
        · exact dictGet_insert_self _ _ _
      · right
        simp only [hm, if_false, ite_false]
        exact hp

/-- C10 witness: the stored mobile survives an update whose custom
field tries to overwrite it. -/
theorem c10_mobile_not_reassignable_witness :
    dictGet [("mobile", Value.str "9")] "mobile" = some (Value.str "9") ∨
    [("mobile", Value.str "9")] ∈ ([[("mobile", Value.str "9")]] : DB) :=
  c10_mobile_not_reassignable [[("mobile", Value.str "9")]] "9"
    ({ custom_fields := some [("mobile", Value.str "HACK")] } : UserUpdate)
    [("mobile", Value.str "9")] (by decide)

/-- C7: a custom field is stored under its sanitized key (spaces and
hyphens turned into underscores), which serves as both the property and
the parameter name, and is read back with the same value from the fetch
endpoint. -/
theorem c7_custom_field_round_trip (k : String) (v : Value) (db : DB) (mobile : String)
    (hk : sanitizeKey k ≠ "mobile") (hv : v ≠ Value.null)
    (hfound : (findUserByMobile db mobile).isSome) :
    (build_update_clauses { custom_fields := some [(k, v)] }).1 =
      [Clause.assignParam (sanitizeKey k) (sanitizeKey k)] ∧
    dictGet (build_update_clauses { custom_fields := some [(k, v)] }).2 (sanitizeKey k) =
      some v ∧
    ((get_user_details
        (update_user db mobile { custom_fields := some [(k, v)] }).2 mobile).user.bind
      (fun p => dictGet p (sanitizeKey k))) = some v := by
  obtain ⟨props, hf⟩ := Option.isSome_iff_exists.mp hfound
  have h1 : (build_update_clauses ({ custom_fields := some [(k, v)] } : UserUpdate)).1 =
      [Clause.assignParam (sanitizeKey k) (sanitizeKey k)] := rfl
  have h2 : dictGet (build_update_clauses ({ custom_fields := some [(k, v)] } : UserUpdate)).2
      (sanitizeKey k) = some v := dictGet_insert_self [] (sanitizeKey k) v
  refine ⟨h1, h2, ?_⟩
  have hparams : dictGet (dictInsert
      (build_update_clauses ({ custom_fields := some [(k, v)] } : UserUpdate)).2 "mobile"
      (Value.str mobile)) (sanitizeKey k) = some v := by
    rw [dictGet_insert_ne _ _ hk]
    exact h2
  have hwrite : ∀ p : Props, dictGet p "mobile" = some (Value.str mobile) →
      dictGet (runSet [Clause.assignParam (sanitizeKey k) (sanitizeKey k)]
        (dictInsert (build_update_clauses ({ custom_fields := some [(k, v)] } : UserUpdate)).2
          "mobile" (Value.str mobile)) p) (sanitizeKey k) = some v := by
    intro p _
    show dictGet (applySetClause _ p (Clause.assignParam (sanitizeKey k) (sanitizeKey k)))
      (sanitizeKey k) = some v
    rw [applySetClause, hparams]
    cases v with
    | null => exact absurd rfl hv
    | str s => exact dictGet_insert_self _ _ _
    | int n => exact dictGet_insert_self _ _ _
    | bool b => exact dictGet_insert_self _ _ _
    | date d => exact dictGet_insert_self _ _ _
  have hmobpt : ∀ p : Props,
      dictGet (if dictGet p "mobile" = some (Value.str mobile)
        then runSet [Clause.assignParam (sanitizeKey k) (sanitizeKey k)]
          (dictInsert (build_update_clauses ({ custom_fields := some [(k, v)] } : UserUpdate)).2
            "mobile" (Value.str mobile)) p
        else p) "mobile" = dictGet p "mobile" := by
    intro p
    by_cases hm : dictGet p "mobile" = some (Value.str mobile)
    · simp only [hm, if_true, ite_true]
      rw [runSet_preserve, hm]
      intro cl hcl
      simp at hcl
      subst hcl
      exact hk
    · simp [hm]
  rw [update_user, hf]
  simp only [h1, List.isEmpty_cons, Bool.false_eq_true, if_false, ite_false]
  rw [get_user_details, findUserByMobile_map db mobile _ hmobpt, hf]
  simp only [Option.map_some']
  have hpm : dictGet props "mobile" = some (Value.str mobile) := by
    have := List.find?_some hf
    exact of_decide_eq_true this
  simp only [hpm, if_true, ite_true]
  exact hwrite props hpm

/-- C7 witness: the loan amount custom field of the specification. -/
theorem c7_custom_field_round_trip_witness :
    ((get_user_details
        (update_user [[("mobile", Value.str "9000000001")]] "9000000001"
          { custom_fields := some [("loan amount", Value.str "50000")] }).2
        "9000000001").user.bind
      (fun p => dictGet p "loan_amount")) = some (Value.str "50000") :=
  (c7_custom_field_round_trip "loan amount" (Value.str "50000")
    [[("mobile", Value.str "9000000001")]] "9000000001" (by decide) (by decide)
    (by decide)).2.2

theorem createNode_mobile (freshId : String) (u : UserCreate) :
    dictGet (createNode freshId u) "mobile" = some (Value.str u.mobile) := by
  cases hr : u.refered_by_name <;> simp [createNode, hr, dictInsert, dictGet]

theorem createNode_id (freshId : String) (u : UserCreate) :
    dictGet (createNode freshId u) "id" = some (Value.str freshId) := by
  cases hr : u.refered_by_name <;> simp [createNode, hr, dictInsert, dictGet]

/-- C5: POST /users/ is idempotent on the mobile natural key: starting
from a store without the mobile, the first call appends exactly one
node and reports the generated id; a second call with a different fresh
id leaves the store unchanged, does not error (statuscode 200 with the
already-exists message), returns the stored record verbatim, and still
reports the id generated by the first call. -/
theorem c5_idempotent_create (db : DB) (u : UserCreate) (id1 id2 : String)
    (h : findUserByMobile db u.mobile = none) :
    (create_User id2 (create_User id1 db u).2 u).2 = (create_User id1 db u).2 ∧
    (create_User id2 (create_User id1 db u).2 u).1.statuscode = 200 ∧
    (create_User id2 (create_User id1 db u).2 u).1.message = some "User already exists" ∧
    (create_User id2 (create_User id1 db u).2 u).1.user =
      findUserByMobile (create_User id1 db u).2 u.mobile ∧
    ((create_User id1 db u).1.user.bind (fun p => dictGet p "id")) = some (Value.str id1) ∧
    ((create_User id2 (create_User id1 db u).2 u).1.user.bind (fun p => dictGet p "id")) =
      some (Value.str id1) ∧
    (create_User id1 db u).2.length = db.length + 1 ∧
    (create_User id2 (create_User id1 db u).2 u).2.length = db.length + 1 := by
  have hf1 : findUserByMobile (db ++ [createNode id1 u]) u.mobile =
      some (createNode id1 u) := by
    unfold findUserByMobile at h ⊢
    rw [find?_append_none _ _ h]
    simp [List.find?, createNode_mobile]
  refine ⟨?_, ?_, ?_, ?_, ?_, ?_, ?_, ?_⟩
  · simp only [create_User, h, hf1]
  · simp only [create_User, h, hf1]
  · simp only [create_User, h, hf1]
  · simp only [create_User, h, hf1]
  · simp only [create_User, h]
    simp [dictGet]
  · simp only [create_User, h, hf1]
    simp [createNode_id]
  · simp only [create_User, h]
    simp
  · simp only [create_User, h, hf1]
    simp

/-- C5 witness: a concrete double registration. -/
theorem c5_idempotent_create_witness :
    (create_User "u-2" (create_User "u-1" [] ⟨"9", "A", "B", "8", none⟩).2
        ⟨"9", "A", "B", "8", none⟩).2 =
      (create_User "u-1" [] ⟨"9", "A", "B", "8", none⟩).2 ∧
    ((create_User "u-2" (create_User "u-1" [] ⟨"9", "A", "B", "8", none⟩).2
        ⟨"9", "A", "B", "8", none⟩).1.user.bind (fun p => dictGet p "id")) =
      some (Value.str "u-1") :=
  ⟨(c5_idempotent_create [] ⟨"9", "A", "B", "8", none⟩ "u-1" "u-2" rfl).1,
   (c5_idempotent_create [] ⟨"9", "A", "B", "8", none⟩ "u-1" "u-2" rfl).2.2.2.2.2.1⟩

theorem opt_match_id (o : Option Value) :
    (match o with
      | some val => some val
      | none => none) = o := by
  cases o <;> rfl

theorem countClause_nil (c : Clause) : countClause c [] = 0 := rfl

theorem countClause_cons (c a : Clause) (l : List Clause) :
    countClause c (a :: l) = countClause c l + (if a = c then 1 else 0) := by
  simp [countClause, List.countP_cons]

/-- C4 amended: the generated id is assigned at first creation and
create on an existing mobile performs no write at all; a PUT by mobile
preserves every stored id provided no custom-fields key sanitizes to
id (the counterexample shows such a key does reassign it). -/
theorem c4_id_stable_without_id_custom_key (db : DB) (mobile : String) (uu : UserUpdate)
    (h : ∀ kv ∈ uu.custom_fields.getD [], sanitizeKey kv.1 ≠ "id") :
    (∀ i, (((update_user db mobile uu).2.get? i).map (fun p => dictGet p "id")) =
      ((db.get? i).map (fun p => dictGet p "id"))) ∧
    (∀ freshId u, (findUserByMobile db u.mobile).isSome →
      (create_User freshId db u).2 = db) := by
  constructor
  · intro i
    cases hf : findUserByMobile db mobile with
    | none => simp [update_user, hf]
    | some props =>
      by_cases he : (build_update_clauses uu).1.isEmpty
      · simp [update_user, hf, he]
      · have hprop : ∀ cl ∈ (build_update_clauses uu).1, clauseProp cl ≠ "id" := by
          intro cl hcl
          rcases build_clause_shape uu cl hcl with ⟨p, rfl, hp | ⟨kv, hkv, rfl⟩⟩ | rfl | rfl
          · intro e
            rw [show clauseProp (Clause.assignParam p p) = p from rfl] at e
            subst e
            exact absurd hp (by decide)
          · exact h kv hkv
          · decide
          · decide
        simp only [update_user, hf, he, Bool.false_eq_true, if_false, ite_false]
        rw [List.get?_map]
        cases db.get? i with
        | none => rfl
        | some p =>
          simp only [Option.map_some']
          by_cases hm : dictGet p "mobile" = some (Value.str mobile)
          · simp only [hm, if_true, ite_true]
            rw [runSet_preserve _ _ _ hprop]
          · simp [hm]
  · intro freshId u hex
    obtain ⟨props, hp⟩ := Option.isSome_iff_exists.mp hex
    simp [create_User, hp]

/-- C4 witness: an innocuous custom key leaves the stored id in place. -/
theorem c4_id_stable_without_id_custom_key_witness :
    (((update_user [[("mobile", Value.str "9"), ("id", Value.str "u-1")]] "9"
        ({ custom_fields := some [("city x", Value.str "P")] } : UserUpdate)).2.get? 0).map
      (fun p => dictGet p "id")) =
    ((([[("mobile", Value.str "9"), ("id", Value.str "u-1")]] : DB).get? 0).map
      (fun p => dictGet p "id")) :=
  (c4_id_stable_without_id_custom_key [[("mobile", Value.str "9"), ("id", Value.str "u-1")]]
    "9" ({ custom_fields := some [("city x", Value.str "P")] } : UserUpdate) (by decide)).1 0

/-- C3 amended: for every update without custom fields, each of the
fifteen attributes the builder actually handles (name, email,
first_name, last_name, gender, occupation, dob, address, city, state,
aadhar_number, pincode, aadhar_front_image_url, aadhar_back_image_url,
verified) yields exactly one parameter-bound assignment when present -
explicit false, zero and empty-string values included, dob only when it
parses - and no assignment nor binding when absent; the attributes
referral_type, income_level and family_size of the model are never
applied (the counterexample shows the original all-attribute list is
wrong). -/
theorem c3_exact_clauses_for_handled_fields (uu : UserUpdate)
    (h : uu.custom_fields = none) :
    countClause (Clause.assignParam "name" "name") (build_update_clauses uu).1 =
      (if uu.name.isSome then 1 else 0) ∧
    dictGet (build_update_clauses uu).2 "name" = uu.name.map Value.str ∧
    countClause (Clause.assignParam "email" "email") (build_update_clauses uu).1 =
      (if uu.email.isSome then 1 else 0) ∧
    dictGet (build_update_clauses uu).2 "email" = uu.email.map Value.str ∧
    countClause (Clause.assignParam "first_name" "first_name") (build_update_clauses uu).1 =
      (if uu.first_name.isSome then 1 else 0) ∧
    dictGet (build_update_clauses uu).2 "first_name" = uu.first_name.map Value.str ∧
    countClause (Clause.assignParam "last_name" "last_name") (build_update_clauses uu).1 =
      (if uu.last_name.isSome then 1 else 0) ∧
    dictGet (build_update_clauses uu).2 "last_name" = uu.last_name.map Value.str ∧
    countClause (Clause.assignParam "gender" "gender") (build_update_clauses uu).1 =
      (if uu.gender.isSome then 1 else 0) ∧
    dictGet (build_update_clauses uu).2 "gender" = uu.gender.map Value.str ∧
    countClause (Clause.assignParam "occupation" "occupation") (build_update_clauses uu).1 =
      (if uu.occupation.isSome then 1 else 0) ∧
    dictGet (build_update_clauses uu).2 "occupation" = uu.occupation.map Value.str ∧
    countClause (Clause.assignParam "dob" "dob") (build_update_clauses uu).1 =
      (if (uu.dob.bind strptime_mdY).isSome then 1 else 0) ∧
    dictGet (build_update_clauses uu).2 "dob" = (uu.dob.bind strptime_mdY).map Value.date ∧
    countClause (Clause.assignParam "address" "address") (build_update_clauses uu).1 =
      (if uu.address.isSome then 1 else 0) ∧
    dictGet (build_update_clauses uu).2 "address" = uu.address.map Value.str ∧
    countClause (Clause.assignParam "city" "city") (build_update_clauses uu).1 =
      (if uu.city.isSome then 1 else 0) ∧
    dictGet (build_update_clauses uu).2 "city" = uu.city.map Value.str ∧
    countClause (Clause.assignParam "state" "state") (build_update_clauses uu).1 =
      (if uu.state.isSome then 1 else 0) ∧
    dictGet (build_update_clauses uu).2 "state" = uu.state.map Value.str ∧
    countClause (Clause.assignParam "aadhar_number" "aadhar_number")
      (build_update_clauses uu).1 = (if uu.aadhar_number.isSome then 1 else 0) ∧
    dictGet (build_update_clauses uu).2 "aadhar_number" = uu.aadhar_number.map Value.int ∧
    countClause (Clause.assignParam "pincode" "pincode") (build_update_clauses uu).1 =
      (if uu.pincode.isSome then 1 else 0) ∧
    dictGet (build_update_clauses uu).2 "pincode" = uu.pincode.map Value.str ∧
    countClause (Clause.assignParam "aadhar_front_image_url" "aadhar_front_image_url")
      (build_update_clauses uu).1 = (if uu.aadhar_front_image_url.isSome then 1 else 0) ∧
    dictGet (build_update_clauses uu).2 "aadhar_front_image_url" =
      uu.aadhar_front_image_url.map Value.str ∧
    countClause (Clause.assignParam "aadhar_back_image_url" "aadhar_back_image_url")
      (build_update_clauses uu).1 = (if uu.aadhar_back_image_url.isSome then 1 else 0) ∧
    dictGet (build_update_clauses uu).2 "aadhar_back_image_url" =
      uu.aadhar_back_image_url.map Value.str ∧
    countClause (Clause.assignParam "verified" "verified") (build_update_clauses uu).1 =
      (if uu.verified.isSome then 1 else 0) ∧
    dictGet (build_update_clauses uu).2 "verified" = uu.verified.map Value.bool ∧
    (∀ rt il fs, build_update_clauses
      { uu with referral_type := rt, income_level := il, family_size := fs } =
      build_update_clauses uu) := by
  refine ⟨?_, ?_, ?_, ?_, ?_, ?_, ?_, ?_, ?_, ?_, ?_, ?_, ?_, ?_, ?_, ?_, ?_, ?_, ?_, ?_,
    ?_, ?_, ?_, ?_, ?_, ?_, ?_, ?_, ?_, ?_, fun _ _ _ => rfl⟩
  all_goals first
    | (simp [build_fst, h, customSeg, countClause_append, countClause_optSeg, countClause_cons,
        countClause_nil]
       done)
    | (simp [build_update_clauses, h, updStep_snd_get_ne, updStep_snd_get_self, dictGet,
        opt_match_id]
       done)

/-- C3 witness: present fields (explicit false, zero and empty string
included) get exactly one bound assignment, and the unparseable dob is
dropped. -/
theorem c3_exact_clauses_for_handled_fields_witness :
    countClause (Clause.assignParam "name" "name") (build_update_clauses uuMixed).1 = 1 ∧
    dictGet (build_update_clauses uuMixed).2 "name" = some (Value.str "N") ∧
    countClause (Clause.assignParam "dob" "dob") (build_update_clauses uuMixed).1 = 0 ∧
    dictGet (build_update_clauses uuMixed).2 "dob" = none ∧
    dictGet (build_update_clauses uuMixed).2 "aadhar_number" = some (Value.int 0) ∧
    dictGet (build_update_clauses uuMixed).2 "pincode" = some (Value.str "") ∧
    countClause (Clause.assignParam "verified" "verified") (build_update_clauses uuMixed).1 =
      1 ∧
    dictGet (build_update_clauses uuMixed).2 "verified" = some (Value.bool false) := by
  obtain ⟨h1, h2, _, _, _, _, _, _, _, _, _, _, h13, h14, _, _, _, _, _, _, _, h22, _, h24,
    _, _, _, _, h29, h30, _⟩ :=
    c3_exact_clauses_for_handled_fields uuMixed rfl
  exact ⟨h1, h2, h13, h14, h22, h24, h29, h30⟩

end Markwave
